import Mathlib

/-!
Verification of the reactive store binding layer of
`proj_effect-box-web-components` (file `src/lib/shared/atomMixin.ts`).

The mixin code under `src/` is embedded faithfully below.  The repository
depends on the external `@effect-atom/atom` package for the `Result` state
machine and the `Registry`; that package's code is not part of the
repository sources, so those two collaborators are modelled from the
specification's description of them (see the doc comments marked
`Modelled from the spec:`), restricted to exactly the operations the mixin
uses.
-/

/-- Modelled from the spec: the `Cause` carried by a `Failure` result
(the `@effect-atom`/`effect` library is not part of the repository
sources).  Only the one operation the mixin uses is modelled:
`Cause.failures`, the sequence of typed failure values, of which the
mixin takes the head. -/
structure CauseM (E : Type) where
  failures : List E
deriving DecidableEq, Repr

/-- Modelled from the spec: the Result state machine of the external
`@effect-atom/atom` package — a tagged variant Initial / Success(value) /
Failure(cause) where "Waiting" is a flag that any of the three can carry,
so that a run in progress "may carry the last known success value for
stale-while-revalidating display" (spec §3).  This is the representation
the mixin code observably relies on: `Result.isWaiting` is consulted
independently of `Result.isSuccess`, and a waiting result with a stale
success value must still satisfy `isSuccess` for `useAtomPromise`'s
pass-through branch to exist. -/
inductive ResultM (A E : Type) where
  | Initial (waiting : Bool)
  | Success (value : A) (waiting : Bool)
  | Failure (cause : CauseM E) (waiting : Bool)
deriving DecidableEq, Repr

namespace ResultM

/-- Modelled from the spec: `Result.isInitial` — the result has never
produced a value or error. -/
def isInitial : ResultM A E → Bool
  | .Initial _ => true
  | _ => false

/-- Modelled from the spec: `Result.isWaiting` — a run is in progress,
regardless of which payload (none / stale success / previous failure)
the result carries. -/
def isWaiting : ResultM A E → Bool
  | .Initial w => w
  | .Success _ w => w
  | .Failure _ w => w

/-- Modelled from the spec: `Result.isSuccess`. -/
def isSuccess : ResultM A E → Bool
  | .Success _ _ => true
  | _ => false

/-- Modelled from the spec: `Result.isFailure`. -/
def isFailure : ResultM A E → Bool
  | .Failure _ _ => true
  | _ => false

end ResultM

/-- The error value the mixin extracts from a failure cause, in both
`useAtomPromise` and `matchResult`:
`pipe(Chunk.head(Cause.failures(cause)), Option.getOrElse(() => cause as E))`.
When the cause holds at least one typed failure the first one is used
(`Sum.inl`); otherwise the cause object itself is passed through the
unchecked cast (`Sum.inr`). -/
def extractError (c : CauseM E) : E ⊕ CauseM E :=
  match c.failures.head? with
  | some e => Sum.inl e
  | none => Sum.inr c

/-- Embeds `MatchResultOptions<A, E>` (atomMixin.ts lines 43–54).  The
output type `TemplateResult | string | null` is abstracted to `V`;
nullable outputs are `Option V` with `none` for TypeScript `null`.
`onInitial`, `onFailure` and `onWaiting` are optional members (outer
`Option`); `onSuccess` is required.  `onFailure`'s first argument is
typed `E` in TypeScript but at runtime receives either a typed failure
or (through the cast) the raw cause, hence `E ⊕ CauseM E`. -/
structure MatchResultOptions (A E V : Type) where
  onInitial : Option (Unit → Option V)
  onSuccess : A → ResultM A E → Option V
  onFailure : Option ((E ⊕ CauseM E) → ResultM A E → Option V)
  onWaiting : Option (ResultM A E → Option V)

/-- Names of the four handlers of `MatchResultOptions`, used to record
which handlers a `matchResult` evaluation invoked. -/
inductive HandlerName where
  | onInitial
  | onSuccess
  | onFailure
  | onWaiting
deriving DecidableEq, Repr

/-- Embeds `matchResult` (atomMixin.ts lines 379–419), instrumented to
also return the list of handlers invoked, in invocation order.  The
structure mirrors the `pipe` of `Option` combinators exactly:

* step 1: `Option.fromNullable(isWaiting && onWaiting ? onWaiting(r) : null)`;
* `orElse`: `liftPredicate isInitial` then `fromNullable (onInitial?())`
  (the thunk is only run when the previous step produced `none`);
* `orElse`: `liftPredicate isSuccess` then `Option.map (onSuccess ...)`
  — note `map`, so a `null` returned by `onSuccess` still stops the
  chain as `some none`;
* `orElse`: `liftPredicate isFailure`, `fromNullable onFailure`, then
  `Option.map` of the handler applied to the extracted error;
* final `Option.getOrNull`.

The pipe's element type `TemplateResult | string | null` is `Option V`;
the pipe itself is an `Option (Option V)`. -/
def matchResultT (r : ResultM A E) (o : MatchResultOptions A E V) :
    Option V × List HandlerName :=
  let s1 : Option (Option V) × List HandlerName :=
    match r.isWaiting, o.onWaiting with
    | true, some h => ((h r).map some, [HandlerName.onWaiting])
    | _, _ => (none, [])
  let s2 : Option (Option V) × List HandlerName :=
    match s1.1 with
    | some v => (some v, s1.2)
    | none =>
      match r.isInitial, o.onInitial with
      | true, some h => ((h ()).map some, s1.2 ++ [HandlerName.onInitial])
      | _, _ => (none, s1.2)
  let s3 : Option (Option V) × List HandlerName :=
    match s2.1 with
    | some v => (some v, s2.2)
    | none =>
      match r with
      | .Success v _ => (some (o.onSuccess v r), s2.2 ++ [HandlerName.onSuccess])
      | _ => (none, s2.2)
  let s4 : Option (Option V) × List HandlerName :=
    match s3.1 with
    | some v => (some v, s3.2)
    | none =>
      match r, o.onFailure with
      | .Failure c w, some h =>
          (some (h (extractError c) (ResultM.Failure c w)), s3.2 ++ [HandlerName.onFailure])
      | _, _ => (none, s3.2)
  (s4.1.getD none, s4.2)

/-- The value returned by `matchResult` (atomMixin.ts lines 379–419):
the first component of the instrumented evaluation. -/
def matchResult (r : ResultM A E) (o : MatchResultOptions A E V) : Option V :=
  (matchResultT r o).1

/-- The handlers `matchResult` invokes, in order. -/
def matchResultCalls (r : ResultM A E) (o : MatchResultOptions A E V) :
    List HandlerName :=
  (matchResultT r o).2

/-- Embeds `checkAndResolve` from `useAtomPromise` (atomMixin.ts lines
262–275) as the settlement decision it makes for one observed result:
`none` means the call returns without settling the promise;
`some (Except.ok v)` means `resolve(v)`;
`some (Except.error e)` means `reject(e)` with the extracted error.
The guards appear in source order: `Initial` bails out first, then
`suspendOnWaiting && isWaiting`, then `isSuccess`, then `isFailure`. -/
def checkAndResolve (suspendOnWaiting : Bool) (r : ResultM A E) :
    Option (Except (E ⊕ CauseM E) A) :=
  if r.isInitial then none
  else if suspendOnWaiting && r.isWaiting then none
  else
    match r with
    | .Success v _ => some (Except.ok v)
    | .Failure c _ => some (Except.error (extractError c))
    | .Initial _ => none

/-- One event seen by the promise executor of `useAtomPromise` after its
synchronous check of the current value: either the subscription delivers
a new result, or the `setTimeout(unsubscribe, 30000)` timer fires. -/
inductive BridgeEv (A E : Type) where
  | notify (r : ResultM A E)
  | timeoutFire
deriving DecidableEq, Repr

deriving instance DecidableEq for Except

/-- The observable state of one `useAtomPromise` bridge: whether the
promise has settled (and how — a promise keeps its first settlement),
and whether the bridging subscription is still registered. -/
structure BridgeState (A E : Type) where
  settled : Option (Except (E ⊕ CauseM E) A)
  subscribed : Bool
deriving DecidableEq, Repr

/-- How one event advances a `useAtomPromise` bridge (atomMixin.ts lines
261–282): a notification reaches `checkAndResolve` only while the
bridging subscription is live, and `resolve`/`reject` are no-ops once the
promise has settled; the timer calls `unsubscribe`, which removes the
subscription and nothing else. -/
def bridgeStep (suspendOnWaiting : Bool) (st : BridgeState A E)
    (ev : BridgeEv A E) : BridgeState A E :=
  match ev with
  | .timeoutFire => { st with subscribed := false }
  | .notify r =>
    if st.subscribed then
      match st.settled with
      | some _ => st
      | none => { st with settled := checkAndResolve suspendOnWaiting r }
    else st

/-- The bridge state `useAtomPromise` reaches after its synchronous check
of the registry's current value (`checkAndResolve(current)`, line 278)
followed by the given sequence of events. -/
def runBridge (suspendOnWaiting : Bool) (current : ResultM A E)
    (evs : List (BridgeEv A E)) : BridgeState A E :=
  evs.foldl (bridgeStep suspendOnWaiting)
    { settled := checkAndResolve suspendOnWaiting current, subscribed := true }

/-- Association-list lookup, modelling `HashMap.get` on the per-instance
maps (keys compared by decidable equality, standing in for the hash of
the atom's reference identity / the tag string). -/
def mlook [DecidableEq α] : List (α × β) → α → Option β
  | [], _ => none
  | (k, v) :: rest, a => if k = a then some v else mlook rest a

/-- Association-list insert-or-replace, modelling `HashMap.set`. -/
def mset [DecidableEq α] : List (α × β) → α → β → List (α × β)
  | [], k, v => [(k, v)]
  | (k', v') :: rest, k, v =>
    if k' = k then (k, v) :: rest else (k', v') :: mset rest k v

/-- List-as-set insert, modelling `HashSet.add` (no duplicates). -/
def sadd [DecidableEq α] (s : List α) (a : α) : List α :=
  if a ∈ s then s else s ++ [a]

/-- The handler closure passed to `registry.subscribe` by the mixin.
Three shapes occur in atomMixin.ts:
* `property key` — the declarative-binding handler of `_subscribeToAtoms`
  (lines 154–161): writes the delivered value into instance field `key`
  and calls `requestUpdate(key)`;
* `autoUpdate` — the handler of `_autoSubscribe` (lines 183–187) and
  `useAtomMount` (lines 301–304): calls `requestUpdate()` ignoring the
  value;
* `bridge pid` — the `checkAndResolve` closure of promise `pid` created
  by `useAtomPromise` (line 280). -/
inductive SubHandler where
  | property (key : Nat)
  | autoUpdate
  | bridge (pid : Nat)
deriving DecidableEq, Repr

/-- An observable action performed by a subscription handler on the
component: writing an instance field, or requesting a re-render
(`requestUpdate(key)` carries the changed key, `requestUpdate()` none). -/
inductive Act (V : Type) where
  | setField (key : Nat) (v : V)
  | requestUpdate (key : Option Nat)
deriving DecidableEq, Repr

/-- What a subscription handler does when the registry delivers value
`v` to it (see `SubHandler`).  The bridge handler's effect is on the
promise, modelled separately by `bridgeStep`, so it performs no
component action. -/
def runHandler (h : SubHandler) (v : V) : List (Act V) :=
  match h with
  | .property key => [Act.setField key v, Act.requestUpdate (some key)]
  | .autoUpdate => [Act.requestUpdate none]
  | .bridge _ => []

/-- Modelled from the spec: the slice of the external registry the mixin
interacts with — the value cache (`get`), the subscriber table populated
by `subscribe` (which returns an unsubscribe handle, here the
subscription's numeric id), and the mounted set (`mount`).  Subscription
ids are allocated from `nextId`. -/
structure Reg (V : Type) where
  values : Nat → V
  subs : List (Nat × Nat × SubHandler)
  nextId : Nat
  mounted : List Nat

/-- Modelled from the spec: `registry.subscribe(atom, handler, ...)` —
appends a live subscription and returns its id (the unsubscribe handle).
An `immediate: true` subscribe also invokes the handler once
synchronously with the current value; that delivery is produced by the
mixin operations below via `runHandler`. -/
def subscribeReg (reg : Reg V) (atom : Nat) (h : SubHandler) : Reg V × Nat :=
  ({ reg with subs := reg.subs ++ [(reg.nextId, atom, h)], nextId := reg.nextId + 1 },
    reg.nextId)

/-- Modelled from the spec: calling the unsubscribe handle returned by
`subscribe` — idempotently removes that subscription from the subscriber
table and touches nothing else (in particular not the value cache). -/
def unsubscribeReg (reg : Reg V) (sid : Nat) : Reg V :=
  { reg with subs := reg.subs.filter (fun s => s.1 ≠ sid) }

/-- Modelled from the spec: `registry.mount(atom)` keeps an atom warm;
only the membership effect is modelled. -/
def mountReg (reg : Reg V) (atom : Nat) : Reg V :=
  { reg with mounted := sadd reg.mounted atom }

/-- The handlers (with their subscription ids) that a change to `atom`
would be delivered to: exactly the live subscriptions on that atom. -/
def invokedSubs (reg : Reg V) (atom : Nat) : List (Nat × SubHandler) :=
  reg.subs.filterMap (fun s => if s.2.1 = atom then some (s.1, s.2.2) else none)

/-- The component actions a change of `atom` to value `v` triggers,
across all live subscriptions, in subscription order. -/
def triggerAtom (reg : Reg V) (atom : Nat) (v : V) : List (Act V) :=
  (invokedSubs reg atom).flatMap (fun s => runHandler s.2 v)

/-- The per-instance bookkeeping of `AtomMixinClass`:
`atomSubscriptions` embeds the `[ATOM_SUBSCRIPTIONS]` HashMap from atom
to unsubscribe handle (here the subscription id the stored closure would
release), and `reactivityKeys` embeds the `[REACTIVITY_KEYS]` HashMap
from tag to the HashSet of atoms registered under it. -/
structure Inst where
  atomSubscriptions : List (Nat × Nat)
  reactivityKeys : List (String × List Nat)
deriving DecidableEq, Repr

/-- A component instance together with the registry it talks to. -/
structure World (V : Type) where
  reg : Reg V
  inst : Inst

/-- One class-level declarative binding recorded by the `atomProperty`
decorator (atomMixin.ts lines 349–377): the instance field key, the
bound atom, and the optional reactivity tags (absent = `[]`). -/
structure Binding where
  key : Nat
  atom : Nat
  reactivityKeys : List String
deriving DecidableEq, Repr

/-- Embeds `_isSubscribed` (atomMixin.ts lines 175–177):
`HashMap.has(this[ATOM_SUBSCRIPTIONS], atom)`. -/
def _isSubscribed (w : World V) (atom : Nat) : Bool :=
  (mlook w.inst.atomSubscriptions atom).isSome

/-- Embeds `_registerReactivityKeys` (atomMixin.ts lines 198–215): for
each tag, add the atom to the tag's existing set, or start a fresh
singleton set, and store it back. -/
def _registerReactivityKeys (inst : Inst) (atom : Nat) (keys : List String) :
    Inst :=
  keys.foldl
    (fun acc key =>
      let atomSet :=
        match mlook acc.reactivityKeys key with
        | some s => sadd s atom
        | none => [atom]
      { acc with reactivityKeys := mset acc.reactivityKeys key atomSet })
    inst

/-- Embeds `_autoSubscribe` (atomMixin.ts lines 179–196): when the
instance has no subscription for the atom, subscribe with the
`requestUpdate` handler (`immediate: true`, so the handler is delivered
once right away — the returned action list) and store the unsubscribe
handle in the instance map; otherwise do nothing. -/
def _autoSubscribe (w : World V) (atom : Nat) : World V × List (Act V) :=
  if _isSubscribed w atom then (w, [])
  else
    let sr := subscribeReg w.reg atom SubHandler.autoUpdate
    let acts := runHandler SubHandler.autoUpdate (w.reg.values atom)
    (⟨sr.1, { w.inst with
        atomSubscriptions := mset w.inst.atomSubscriptions atom sr.2 }⟩, acts)

/-- Embeds the `subscribeToAtom` helper of `_subscribeToAtoms`
(atomMixin.ts lines 118–144) applied to one declarative binding:
subscribe the property handler with `immediate: true` (the handler runs
once synchronously with the current value — the returned actions), store
the unsubscribe handle under the atom in the instance map, and register
the binding's reactivity tags when the list is non-empty. -/
def subscribeBindingStep (w : World V) (b : Binding) : World V × List (Act V) :=
  let sr := subscribeReg w.reg b.atom (SubHandler.property b.key)
  let acts := runHandler (SubHandler.property b.key) (w.reg.values b.atom)
  let inst1 : Inst :=
    { w.inst with atomSubscriptions := mset w.inst.atomSubscriptions b.atom sr.2 }
  let inst2 :=
    if b.reactivityKeys.length > 0 then
      _registerReactivityKeys inst1 b.atom b.reactivityKeys
    else inst1
  (⟨sr.1, inst2⟩, acts)

/-- Embeds `_subscribeToAtoms` (atomMixin.ts lines 114–165), the body of
`connectedCallback`: iterate the class-level `[ATOM_PROPERTY_KEYS]`
declarations in order, subscribing each.  Returns the new world and the
concatenated immediate-delivery actions. -/
def _subscribeToAtoms (w : World V) : List Binding → World V × List (Act V)
  | [] => (w, [])
  | b :: rest =>
    let step := subscribeBindingStep w b
    let next := _subscribeToAtoms step.1 rest
    (next.1, step.2 ++ next.2)

/-- Embeds `_unsubscribeFromAtoms` (atomMixin.ts lines 167–173), the body
of `disconnectedCallback`: call every stored unsubscribe handle, then
reset both instance maps to empty. -/
def _unsubscribeFromAtoms (w : World V) : World V :=
  let reg1 :=
    w.inst.atomSubscriptions.foldl (fun r p => unsubscribeReg r p.2) w.reg
  ⟨reg1, { atomSubscriptions := [], reactivityKeys := [] }⟩

/-- Embeds the state effect and return value of `useAtom` (atomMixin.ts
lines 217–232): auto-subscribe, then read the current value from the
registry.  The returned `setValue` closure is pure construction (it only
acts when later invoked) and no claim concerns it, so it is not carried
in the model. -/
def useAtom (w : World V) (atom : Nat) : (World V × List (Act V)) × V :=
  let step := _autoSubscribe w atom
  (step, step.1.reg.values atom)

/-- Embeds `useAtomValue` (atomMixin.ts lines 234–237): auto-subscribe,
then return `globalRegistry.get(atom)`. -/
def useAtomValue (w : World V) (atom : Nat) : (World V × List (Act V)) × V :=
  let step := _autoSubscribe w atom
  (step, step.1.reg.values atom)

/-- Embeds the state effect of `useAtomSet` (atomMixin.ts lines 239–251):
auto-subscribe; the returned setter closure is constructed but not
invoked. -/
def useAtomSet (w : World V) (atom : Nat) : World V × List (Act V) :=
  _autoSubscribe w atom

/-- Embeds the state effect of `useAtomRefresh` (atomMixin.ts lines
285–291): auto-subscribe; the returned refresh closure is constructed
but not invoked. -/
def useAtomRefresh (w : World V) (atom : Nat) : World V × List (Act V) :=
  _autoSubscribe w atom

/-- Embeds `useAtomMount` (atomMixin.ts lines 293–322): when the
instance has no subscription for the atom, subscribe the `requestUpdate`
handler (`immediate: true`), store the unsubscribe handle, register the
given reactivity tags when non-empty, and `mount` the atom; otherwise do
nothing. -/
def useAtomMount (w : World V) (atom : Nat) (reactivityKeys : List String) :
    World V × List (Act V) :=
  if _isSubscribed w atom then (w, [])
  else
    let sr := subscribeReg w.reg atom SubHandler.autoUpdate
    let acts := runHandler SubHandler.autoUpdate (w.reg.values atom)
    let inst1 : Inst :=
      { w.inst with atomSubscriptions := mset w.inst.atomSubscriptions atom sr.2 }
    let inst2 :=
      if reactivityKeys.length > 0 then
        _registerReactivityKeys inst1 atom reactivityKeys
      else inst1
    (⟨mountReg sr.1 atom, inst2⟩, acts)

/-- Embeds the subscription side of `useAtomPromise` (atomMixin.ts lines
253–283): auto-subscribe (stored in the instance map), then inside the
promise executor subscribe `checkAndResolve` as a second, bridging
subscription whose unsubscribe handle is NOT stored in the instance map
— it is only scheduled for release by `setTimeout(unsubscribe, 30000)`.
Returns the new world, the immediate-delivery actions of the
auto-subscription, and the bridging subscription's id (the handle the
timer will release).  The settlement behaviour of the executor is
modelled by `runBridge`. -/
def useAtomPromiseSub (w : World V) (atom : Nat) (pid : Nat) :
    (World V × List (Act V)) × Nat :=
  let step := _autoSubscribe w atom
  let sr := subscribeReg step.1.reg atom (SubHandler.bridge pid)
  ((⟨sr.1, step.1.inst⟩, step.2), sr.2)

/-- Embeds `invalidate` (atomMixin.ts lines 324–339): for each given tag
in order, look the tag up in the instance's reactivity-key map and call
`registry.refresh` on every atom of its set; a missing tag contributes
nothing.  Returns the atoms passed to `refresh`, in call order. -/
def invalidate (w : World V) (keys : List String) : List Nat :=
  keys.flatMap (fun key => (mlook w.inst.reactivityKeys key).getD [])

/-- A fresh component instance against a registry whose every atom
caches the value `0`: no subscriptions, no reactivity tags. -/
def emptyWorldNat : World Nat :=
  ⟨⟨fun _ => 0, [], 0, []⟩, ⟨[], []⟩⟩

/-- An instance that already holds a subscription (id 0) for atom 3:
the registry's subscriber table has the auto-update handler live, and
the instance map records atom 3 ↦ unsubscribe handle 0. -/
def subscribedWorldNat : World Nat :=
  ⟨⟨fun _ => 0, [(0, 3, SubHandler.autoUpdate)], 1, []⟩, ⟨[(3, 0)], []⟩⟩

/-- An instance whose per-instance tag index was built with
`_registerReactivityKeys`: atoms 0 and 1 registered under tag `x`,
atom 2 under tag `y` only. -/
def tagWorldNat : World Nat :=
  ⟨⟨fun _ => 0, [], 0, []⟩,
    _registerReactivityKeys
      (_registerReactivityKeys (_registerReactivityKeys ⟨[], []⟩ 0 ["x"]) 1 ["x"])
      2 ["y"]⟩

/-- A fresh instance against a registry of async atoms whose every atom
currently caches a completed Failure result with one typed failure, 9. -/
def failWorldNat : World (ResultM Nat Nat) :=
  ⟨⟨fun _ => ResultM.Failure ⟨[9]⟩ false, [], 0, []⟩, ⟨[], []⟩⟩

lemma mlook_mset_self [DecidableEq α] (m : List (α × β)) (k : α) (v : β) :
    mlook (mset m k v) k = some v := by
  induction m with
  | nil => simp [mset, mlook]
  | cons p rest ih =>
    by_cases h : p.1 = k
    · simp [mset, h, mlook]
    · simp [mset, h, mlook, ih]

lemma isSubscribed_after_mset (reg : Reg V) (inst : Inst) (a sid : Nat) :
    _isSubscribed
      ⟨reg, { inst with atomSubscriptions := mset inst.atomSubscriptions a sid }⟩
      a = true := by
  simp [_isSubscribed, mlook_mset_self]

lemma subscribeBindingStep_values (w : World V) (b : Binding) :
    (subscribeBindingStep w b).1.reg.values = w.reg.values := by
  simp only [subscribeBindingStep, subscribeReg]

lemma subscribeToAtoms_log (decls : List Binding) :
    ∀ w : World V,
      (_subscribeToAtoms w decls).2 =
        decls.flatMap (fun b =>
          [Act.setField b.key (w.reg.values b.atom),
           Act.requestUpdate (some b.key)]) := by
  induction decls with
  | nil => intro w; simp [_subscribeToAtoms]
  | cons b rest ih =>
    intro w
    simp only [_subscribeToAtoms, List.flatMap_cons]
    rw [ih, subscribeBindingStep_values]
    simp [subscribeBindingStep, runHandler]

lemma subscribeToAtoms_subs_suffix (decls : List Binding) :
    ∀ w : World V, ∃ t, (_subscribeToAtoms w decls).1.reg.subs = w.reg.subs ++ t := by
  induction decls with
  | nil => intro w; exact ⟨[], by simp [_subscribeToAtoms]⟩
  | cons b rest ih =>
    intro w
    obtain ⟨t, ht⟩ := ih (subscribeBindingStep w b).1
    refine ⟨[(w.reg.nextId, b.atom, SubHandler.property b.key)] ++ t, ?_⟩
    rw [_subscribeToAtoms, ht]
    simp [subscribeBindingStep, subscribeReg]

lemma subscribeToAtoms_mem_subs (decls : List Binding) :
    ∀ w : World V, ∀ b ∈ decls, ∃ sid,
      (sid, b.atom, SubHandler.property b.key) ∈
        (_subscribeToAtoms w decls).1.reg.subs := by
  induction decls with
  | nil => intro w b hb; cases hb
  | cons c rest ih =>
    intro w b hb
    rcases List.mem_cons.mp hb with hb | hb
    · subst hb
      obtain ⟨t, ht⟩ := subscribeToAtoms_subs_suffix rest (subscribeBindingStep w b).1
      refine ⟨w.reg.nextId, ?_⟩
      rw [_subscribeToAtoms, ht]
      simp [subscribeBindingStep, subscribeReg]
    · obtain ⟨sid, hs⟩ := ih (subscribeBindingStep w c).1 b hb
      exact ⟨sid, by rw [_subscribeToAtoms]; exact hs⟩

lemma unsubFold_mem (l : List (Nat × Nat)) :
    ∀ (reg : Reg V) (s : Nat × Nat × SubHandler),
      (s ∈ (l.foldl (fun r p => unsubscribeReg r p.2) reg).subs) ↔
        (s ∈ reg.subs ∧ s.1 ∉ l.map Prod.snd) := by
  induction l with
  | nil => intro reg s; simp
  | cons p rest ih =>
    intro reg s
    rw [List.foldl_cons, ih]
    simp only [unsubscribeReg, List.mem_filter, List.map_cons, List.mem_cons]
    constructor
    · rintro ⟨⟨hm, hne⟩, hnot⟩
      refine ⟨hm, ?_⟩
      rintro (h | h)
      · exact absurd h (by simpa using hne)
      · exact hnot h
    · rintro ⟨hm, hnot⟩
      refine ⟨⟨hm, ?_⟩, fun h => hnot (Or.inr h)⟩
      simpa using fun h => hnot (Or.inl h)

lemma unsubscribeFromAtoms_mem (w : World V) (s : Nat × Nat × SubHandler) :
    s ∈ (_unsubscribeFromAtoms w).reg.subs ↔
      (s ∈ w.reg.subs ∧ s.1 ∉ w.inst.atomSubscriptions.map Prod.snd) := by
  simp only [_unsubscribeFromAtoms]
  exact unsubFold_mem w.inst.atomSubscriptions w.reg s

lemma unsubscribeFromAtoms_values (w : World V) :
    (_unsubscribeFromAtoms w).reg.values = w.reg.values := by
  simp only [_unsubscribeFromAtoms]
  generalize w.inst.atomSubscriptions = l
  induction l generalizing w with
  | nil => simp
  | cons p rest ih =>
    rw [List.foldl_cons]
    have := ih ⟨unsubscribeReg w.reg p.2, w.inst⟩
    simpa [unsubscribeReg] using this

lemma bridgeStep_settled_some (s : Bool) (st : BridgeState A E)
    (e : BridgeEv A E) (x : Except (E ⊕ CauseM E) A) (h : st.settled = some x) :
    (bridgeStep s st e).settled = some x := by
  cases e with
  | timeoutFire => simpa [bridgeStep] using h
  | notify r =>
    by_cases hs : st.subscribed <;> simp [bridgeStep, hs, h]

lemma bridgeStep_notify_subscribed (s : Bool) (st : BridgeState A E)
    (r : ResultM A E) :
    (bridgeStep s st (BridgeEv.notify r)).subscribed = st.subscribed := by
  by_cases hs : st.subscribed <;> cases hst : st.settled <;>
    simp [bridgeStep, hs, hst]

lemma bridge_foldl_notify_settled (s : Bool) (notifs : List (ResultM A E)) :
    ∀ st : BridgeState A E, st.subscribed = true →
      (((notifs.map BridgeEv.notify).foldl (bridgeStep s) st).settled =
        (st.settled.orElse (fun _ => notifs.findSome? (checkAndResolve s)))) ∧
      ((notifs.map BridgeEv.notify).foldl (bridgeStep s) st).subscribed = true := by
  induction notifs with
  | nil => intro st hs; simp [hs]
  | cons r rest ih =>
    intro st hs
    rw [List.map_cons, List.foldl_cons, List.findSome?]
    cases hset : st.settled with
    | some x =>
      have hstep : bridgeStep s st (BridgeEv.notify r) = st := by
        simp [bridgeStep, hs, hset]
      rw [hstep]
      obtain ⟨h1, h2⟩ := ih st hs
      refine ⟨?_, h2⟩
      rw [h1, hset]
      simp [Option.orElse]
    | none =>
      have hstep : bridgeStep s st (BridgeEv.notify r) =
          { st with settled := checkAndResolve s r } := by
        simp [bridgeStep, hs, hset]
      rw [hstep]
      obtain ⟨h1, h2⟩ := ih { st with settled := checkAndResolve s r } (by simpa using hs)
      refine ⟨?_, h2⟩
      rw [h1]
      cases hc : checkAndResolve s r <;> simp [Option.orElse]

lemma runBridge_notify_settled (s : Bool) (current : ResultM A E)
    (notifs : List (ResultM A E)) :
    (runBridge s current (notifs.map BridgeEv.notify)).settled =
      (current :: notifs).findSome? (checkAndResolve s) := by
  rw [runBridge, List.findSome?]
  obtain ⟨h1, _⟩ := bridge_foldl_notify_settled s notifs
    { settled := checkAndResolve s current, subscribed := true } rfl
  rw [h1]
  cases hc : checkAndResolve s current <;> simp [Option.orElse]

lemma bridge_foldl_unsub_absorbing (s : Bool) (evs : List (BridgeEv A E)) :
    ∀ st : BridgeState A E, st.subscribed = false →
      (evs.foldl (bridgeStep s) st).subscribed = false := by
  induction evs with
  | nil => intro st h; simpa using h
  | cons e rest ih =>
    intro st h
    rw [List.foldl_cons]
    apply ih
    cases e with
    | timeoutFire => simp [bridgeStep]
    | notify r => rw [bridgeStep_notify_subscribed]; exact h

lemma mem_invalidate (w : World V) (keys : List String) (a : Nat) :
    a ∈ invalidate w keys ↔
      ∃ k ∈ keys, a ∈ (mlook w.inst.reactivityKeys k).getD [] := by
  simp [invalidate, List.mem_flatMap]

/-- C4 counterexample: a Result that is Waiting while carrying a stale
Success payload (`ResultM.Success 42 true`), with both `onWaiting` and
`onSuccess` supplied.  Because the supplied `onWaiting` returns `null`,
`matchResult` falls through `Option.fromNullable` to the success branch:
`onSuccess` is invoked (the call trace ends with `HandlerName.onSuccess`)
and its output is what `matchResult` returns — refuting the claim that
`onSuccess` is never dispatched in this situation. -/
theorem c4_counterexample :
    matchResultT (ResultM.Success (E := Nat) 42 true)
        ⟨none, fun _ _ => some "success", none, some (fun _ => none)⟩ =
      (some "success", [HandlerName.onWaiting, HandlerName.onSuccess]) := rfl

/-- C4 (amended): on a Result that is Waiting with a stale Success
payload and with `onWaiting` supplied, `onWaiting` is always dispatched
first; whenever it returns a non-null output that output is returned and
`onSuccess` is never invoked; but when `onWaiting` returns null the
match falls through and dispatches `onSuccess` on the stale value. -/
theorem c4_waiting_precedence (o : MatchResultOptions A E V) (v : A)
    (hw : ResultM A E → Option V) (how : o.onWaiting = some hw) :
    (∀ out, hw (ResultM.Success v true) = some out →
      matchResultT (ResultM.Success v true) o =
        (some out, [HandlerName.onWaiting])) ∧
    (hw (ResultM.Success v true) = none →
      matchResultT (ResultM.Success v true) o =
        (o.onSuccess v (ResultM.Success v true),
          [HandlerName.onWaiting, HandlerName.onSuccess])) := by
  constructor
  · intro out hout
    simp [matchResultT, how, hout, ResultM.isWaiting]
  · intro hnull
    simp [matchResultT, how, hnull, ResultM.isWaiting, ResultM.isInitial]

/-- C4 witness: the amended theorem applied to a concrete handler set
whose `onWaiting` renders a waiting indicator. -/
theorem c4_waiting_precedence_witness :
    matchResultT (ResultM.Success (E := Nat) 42 true)
        ⟨none, fun _ _ => some "success", none, some (fun _ => some "waiting")⟩ =
      (some "waiting", [HandlerName.onWaiting]) :=
  (c4_waiting_precedence
      ⟨none, fun _ _ => some "success", none, some (fun _ => some "waiting")⟩
      42 (fun _ => some "waiting") rfl).1 "waiting" rfl

/-- C5: `useAtomPromise` bridges the Result machine to a single
resolution: `Initial` never settles the promise; with
`suspendOnWaiting` unset, a Waiting result carrying a stale Success
value resolves with that stale value; with `suspendOnWaiting` set, any
waiting result is ignored; a completed Success resolves with its value
and a completed Failure rejects with the extracted error; and the
settlement of the bridge is exactly the first settling decision over the
observed sequence (current value first, then notifications). -/
theorem c5_promise_bridge {A E : Type} :
    (∀ (s w : Bool), checkAndResolve (A := A) (E := E) s (ResultM.Initial w) = none) ∧
    (∀ v : A, checkAndResolve (E := E) false (ResultM.Success v true) =
      some (Except.ok v)) ∧
    (∀ v : A, checkAndResolve (E := E) true (ResultM.Success v true) = none) ∧
    (∀ c : CauseM E, checkAndResolve (A := A) true (ResultM.Failure c true) = none) ∧
    (∀ (s : Bool) (v : A), checkAndResolve (E := E) s (ResultM.Success v false) =
      some (Except.ok v)) ∧
    (∀ (s : Bool) (c : CauseM E), checkAndResolve (A := A) s (ResultM.Failure c false) =
      some (Except.error (extractError c))) ∧
    (∀ (s : Bool) (current : ResultM A E) (notifs : List (ResultM A E)),
      (runBridge s current (notifs.map BridgeEv.notify)).settled =
        (current :: notifs).findSome? (checkAndResolve s)) := by
  refine ⟨?_, ?_, ?_, ?_, ?_, ?_, ?_⟩
  · intro s w
    simp [checkAndResolve, ResultM.isInitial]
  · intro v
    simp [checkAndResolve, ResultM.isInitial, ResultM.isWaiting]
  · intro v
    simp [checkAndResolve, ResultM.isInitial, ResultM.isWaiting]
  · intro c
    simp [checkAndResolve, ResultM.isInitial, ResultM.isWaiting]
  · intro s v
    simp [checkAndResolve, ResultM.isInitial, ResultM.isWaiting]
  · intro s c
    simp [checkAndResolve, ResultM.isInitial, ResultM.isWaiting]
  · intro s current notifs
    exact runBridge_notify_settled s current notifs

/-- C10: `matchResult` is total and returns null (here `none`) instead
of raising when the applicable handler is missing (or, for `onWaiting`,
returns null) and no lower-precedence branch applies: an `Initial`
result with `onInitial` missing, a `Failure` with `onFailure` missing,
and a waiting `Initial` whose `onWaiting` returns null with `onInitial`
missing all yield null. -/
theorem c10_matchResult_total {A E V : Type} :
    (∀ (o : MatchResultOptions A E V) (wf : Bool), o.onInitial = none →
      o.onWaiting = none → matchResult (ResultM.Initial wf) o = none) ∧
    (∀ (o : MatchResultOptions A E V) (c : CauseM E) (wf : Bool),
      o.onFailure = none → o.onWaiting = none →
      matchResult (ResultM.Failure c wf) o = none) ∧
    (∀ (o : MatchResultOptions A E V) (f : ResultM A E → Option V),
      o.onInitial = none → o.onWaiting = some f →
      f (ResultM.Initial true) = none →
      matchResult (ResultM.Initial true) o = none) := by
  refine ⟨?_, ?_, ?_⟩
  · intro o wf hi hw
    cases wf <;>
      simp [matchResult, matchResultT, hi, hw, ResultM.isWaiting, ResultM.isInitial]
  · intro o c wf hf hw
    cases wf <;>
      simp [matchResult, matchResultT, hf, hw, ResultM.isWaiting, ResultM.isInitial]
  · intro o f hi hw hnull
    simp [matchResult, matchResultT, hi, hw, hnull, ResultM.isWaiting, ResultM.isInitial]

/-- C10 witness: a Failure with no `onFailure` handler and an Initial
with no `onInitial` handler both render as null for a concrete handler
set supplying only `onSuccess`. -/
theorem c10_matchResult_total_witness :
    matchResult (ResultM.Failure (A := Nat) ⟨[7]⟩ false)
        ⟨none, fun _ _ => some "success", none, none⟩ = (none : Option String) :=
  c10_matchResult_total.2.1 ⟨none, fun _ _ => some "success", none, none⟩ ⟨[7]⟩
    false rfl rfl

/-- C1 counterexample: a fresh instance with no active subscription for
atom 7 calls `useAtomValue` on it.  Far from refusing (no exception, no
error path exists in the accessor), the call silently creates a new
subscription — the instance map gains the entry `(7, 0)` and
`_isSubscribed` flips to true — and returns the registry's cached value.
This refutes the claim that imperative accessors fail fast on an atom
with no active subscription. -/
theorem c1_counterexample :
    (useAtomValue emptyWorldNat 7).1.1.inst.atomSubscriptions = [(7, 0)] ∧
    _isSubscribed (useAtomValue emptyWorldNat 7).1.1 7 = true ∧
    (useAtomValue emptyWorldNat 7).2 = 0 := ⟨rfl, rfl, rfl⟩

/-- C1 (amended): an imperative accessor (`useAtom`, `useAtomValue`,
`useAtomSet`, `useAtomRefresh`, `useAtomPromise`) called on an atom with
no active subscription for the instance does not refuse: it silently
auto-subscribes, storing the new unsubscribe handle in the instance's
subscription map (so the subscription is managed — released on detach),
and proceeds to operate, returning the registry's cached value where it
returns one.  No accessor throws. -/
theorem c1_accessors_auto_subscribe (w : World V) (a pid : Nat)
    (h : _isSubscribed w a = false) :
    ((useAtom w a).1.1.inst.atomSubscriptions =
        mset w.inst.atomSubscriptions a w.reg.nextId ∧
      (useAtom w a).2 = w.reg.values a) ∧
    ((useAtomValue w a).1.1.inst.atomSubscriptions =
        mset w.inst.atomSubscriptions a w.reg.nextId ∧
      (useAtomValue w a).2 = w.reg.values a) ∧
    (useAtomSet w a).1.inst.atomSubscriptions =
      mset w.inst.atomSubscriptions a w.reg.nextId ∧
    (useAtomRefresh w a).1.inst.atomSubscriptions =
      mset w.inst.atomSubscriptions a w.reg.nextId ∧
    (useAtomPromiseSub w a pid).1.1.inst.atomSubscriptions =
      mset w.inst.atomSubscriptions a w.reg.nextId ∧
    _isSubscribed (useAtomValue w a).1.1 a = true := by
  simp only [_isSubscribed] at h
  refine ⟨⟨?_, ?_⟩, ⟨?_, ?_⟩, ?_, ?_, ?_, ?_⟩ <;>
    simp [useAtom, useAtomValue, useAtomSet, useAtomRefresh, useAtomPromiseSub,
      _autoSubscribe, _isSubscribed, h, subscribeReg, mlook_mset_self]

/-- C1 witness: the amended theorem at the fresh instance and atom 7. -/
theorem c1_accessors_auto_subscribe_witness :
    (useAtomValue emptyWorldNat 7).1.1.inst.atomSubscriptions =
        mset emptyWorldNat.inst.atomSubscriptions 7 emptyWorldNat.reg.nextId ∧
      (useAtomValue emptyWorldNat 7).2 = emptyWorldNat.reg.values 7 :=
  (c1_accessors_auto_subscribe emptyWorldNat 7 0 rfl).2.1

/-- C2 counterexample: a `useAtomPromise` bridge whose atom's Result is
still `Initial` when the 30-second timer fires.  The timer tears the
bridging subscription down (`subscribed = false`) but the bridging
promise is NOT rejected: its settlement stays `none` (forever pending),
not `some (Except.error ...)` as the claim requires. -/
theorem c2_counterexample :
    runBridge false (ResultM.Initial (A := Nat) (E := Nat) false)
        [BridgeEv.timeoutFire] =
      { settled := none, subscribed := false } := rfl

/-- C2 (amended): when the atom's Result neither succeeds nor fails
before the upper-bound timeout, the timer tears the bridging
subscription down — and the teardown is all it does: the bridging
promise is left forever pending (it is not rejected), and the
unsubscribe touches only the registry's subscriber table, never the
cached Result state of the atom. -/
theorem c2_timeout_teardown {A E V : Type} :
    (∀ (s : Bool) (current : ResultM A E) (pre post : List (BridgeEv A E)),
      (runBridge s current (pre ++ BridgeEv.timeoutFire :: post)).subscribed =
        false) ∧
    (∀ (s : Bool) (current : ResultM A E) (notifs : List (ResultM A E)),
      (∀ r ∈ current :: notifs, checkAndResolve s r = none) →
      runBridge s current (notifs.map BridgeEv.notify ++ [BridgeEv.timeoutFire]) =
        { settled := none, subscribed := false }) ∧
    (∀ (reg : Reg V) (sid : Nat), (unsubscribeReg reg sid).values = reg.values) := by
  refine ⟨?_, ?_, ?_⟩
  · intro s current pre post
    rw [runBridge, List.foldl_append, List.foldl_cons]
    apply bridge_foldl_unsub_absorbing
    simp [bridgeStep]
  · intro s current notifs hnone
    have hset := runBridge_notify_settled s current notifs
    have hfind : (current :: notifs).findSome? (checkAndResolve s) = none :=
      List.findSome?_eq_none_iff.mpr hnone
    rw [hfind, runBridge] at hset
    rw [runBridge, List.foldl_append, List.foldl_cons, List.foldl_nil]
    rcases hq : (notifs.map BridgeEv.notify).foldl (bridgeStep s)
        { settled := checkAndResolve s current, subscribed := true } with ⟨se, su⟩
    rw [hq] at hset
    simp only at hset
    simp [bridgeStep, hset]
  · intro reg sid
    simp [unsubscribeReg]

/-- C2 witness: the amended theorem's unresolved-before-timeout case at
a bridge that only ever observes `Initial` results. -/
theorem c2_timeout_teardown_witness :
    runBridge false (ResultM.Initial (A := Nat) (E := Nat) false)
        ([ResultM.Initial (A := Nat) (E := Nat) true].map BridgeEv.notify ++
          [BridgeEv.timeoutFire]) =
      { settled := none, subscribed := false } :=
  (c2_timeout_teardown (V := Nat)).2.1 false (ResultM.Initial false)
    [ResultM.Initial true] (by decide)

/-- C3 counterexample: a fresh instance calls `useAtomPromise` on atom 5
(promise id 0) while attached.  Two registry subscriptions result: the
stored auto-subscription (id 0) and the bridging `checkAndResolve`
subscription (id 1), which is never stored in the instance map.  After
detach (`_unsubscribeFromAtoms`), the bridging subscription is still
live in the registry and a change to atom 5 still invokes its handler —
so NOT every subscribe call made while attached gets a release during
detach, refuting the claim. -/
theorem c3_counterexample :
    (_unsubscribeFromAtoms (useAtomPromiseSub emptyWorldNat 5 0).1.1).reg.subs =
        [(1, 5, SubHandler.bridge 0)] ∧
    invokedSubs
        (_unsubscribeFromAtoms (useAtomPromiseSub emptyWorldNat 5 0).1.1).reg 5 =
      [(1, SubHandler.bridge 0)] := ⟨rfl, rfl⟩

/-- C3 (amended): detach releases exactly the subscriptions recorded in
the instance's subscription map — declarative bindings and accessor
auto-subscriptions — each exactly once (the map is cleared, so no handle
survives to be called again), and after detach a change to any atom
never invokes a handler whose subscription was recorded there.  The
bridging subscription created by `useAtomPromise` is not recorded in the
map and is not released at detach; it is only torn down by its own
30-second timer. -/
theorem c3_detach_releases_tracked (w : World V) :
    (∀ e ∈ (_unsubscribeFromAtoms w).reg.subs,
      e.1 ∉ w.inst.atomSubscriptions.map Prod.snd) ∧
    (_unsubscribeFromAtoms w).inst.atomSubscriptions = [] ∧
    (_unsubscribeFromAtoms w).inst.reactivityKeys = [] ∧
    (∀ (a : Nat), ∀ p ∈ invokedSubs (_unsubscribeFromAtoms w).reg a,
      p.1 ∉ w.inst.atomSubscriptions.map Prod.snd) ∧
    (∀ (a pid : Nat),
      ((useAtomPromiseSub w a pid).1.1.inst.atomSubscriptions =
          (_autoSubscribe w a).1.inst.atomSubscriptions ∧
        ((useAtomPromiseSub w a pid).2, a, SubHandler.bridge pid) ∈
          (useAtomPromiseSub w a pid).1.1.reg.subs)) := by
  refine ⟨?_, rfl, rfl, ?_, ?_⟩
  · intro e he
    exact ((unsubscribeFromAtoms_mem w e).mp he).2
  · intro a p hp
    simp only [invokedSubs, List.mem_filterMap] at hp
    obtain ⟨s, hs, heq⟩ := hp
    have hmem := ((unsubscribeFromAtoms_mem w s).mp hs).2
    by_cases hsa : s.2.1 = a
    · rw [if_pos hsa] at heq
      cases heq
      exact hmem
    · rw [if_neg hsa] at heq
      cases heq
  · intro a pid
    constructor
    · rfl
    · simp [useAtomPromiseSub, subscribeReg]

/-- C3 witness: the amended theorem at an instance holding one recorded
subscription (atom 3, handle 0): detach leaves no live subscription with
that handle. -/
theorem c3_detach_releases_tracked_witness :
    (_unsubscribeFromAtoms subscribedWorldNat).inst.atomSubscriptions = [] :=
  (c3_detach_releases_tracked subscribedWorldNat).2.1

/-- C6: `invalidate` refreshes exactly the union of the atoms registered
under any of the given tags in the caller's per-instance tag index (an
atom is refreshed iff some given tag has it registered; a tag with no
registered atoms contributes nothing), and on the concrete instance
with atoms 0 and 1 under tag `x` and atom 2 under tag `y` only,
`invalidate ["x"]` refreshes 0 and 1 and not 2. -/
theorem c6_invalidate_tag_fanout :
    (∀ (V : Type) (w : World V) (keys : List String) (a : Nat),
      a ∈ invalidate w keys ↔
        ∃ k ∈ keys, a ∈ (mlook w.inst.reactivityKeys k).getD []) ∧
    invalidate tagWorldNat ["x"] = [0, 1] ∧
    (invalidate tagWorldNat ["x"]).contains 2 = false ∧
    invalidate tagWorldNat ["z"] = [] := by
  refine ⟨?_, rfl, rfl, rfl⟩
  intro V w keys a
  exact mem_invalidate w keys a

/-- C6 witness: atom 0 is refreshed by `invalidate ["x"]` on the
concrete tagged instance, via the union characterisation. -/
theorem c6_invalidate_tag_fanout_witness :
    0 ∈ invalidate tagWorldNat ["x"] :=
  (c6_invalidate_tag_fanout.1 Nat tagWorldNat ["x"] 0).mpr
    ⟨"x", by decide, by decide⟩

/-- C7: on attach, `_subscribeToAtoms` establishes one registry
subscription per class-level declared binding (carrying that binding's
property handler), the attach log is exactly, binding by binding in
declaration order, the immediate initial delivery — a write of the
atom's current value into the designated field followed by a re-render
request for that field — and every later delivery of a value `v` to a
property handler performs the same field write followed by the
re-render request. -/
theorem c7_attach_bindings :
    (∀ (V : Type) (w : World V) (decls : List Binding),
      (∀ b ∈ decls, ∃ sid,
        (sid, b.atom, SubHandler.property b.key) ∈
          (_subscribeToAtoms w decls).1.reg.subs) ∧
      (_subscribeToAtoms w decls).2 =
        decls.flatMap (fun b =>
          [Act.setField b.key (w.reg.values b.atom),
           Act.requestUpdate (some b.key)])) ∧
    (∀ (V : Type) (key : Nat) (v : V),
      runHandler (SubHandler.property key) v =
        [Act.setField key v, Act.requestUpdate (some key)]) := by
  refine ⟨?_, ?_⟩
  · intro V w decls
    exact ⟨subscribeToAtoms_mem_subs decls w, subscribeToAtoms_log decls w⟩
  · intro V key v
    rfl

/-- C7 witness: attaching a fresh instance with the single declared
binding field 1 ↦ atom 4 subscribes the property handler for atom 4. -/
theorem c7_attach_bindings_witness :
    ∃ sid, (sid, 4, SubHandler.property 1) ∈
      (_subscribeToAtoms emptyWorldNat [⟨1, 4, []⟩]).1.reg.subs :=
  (c7_attach_bindings.1 Nat emptyWorldNat [⟨1, 4, []⟩]).1 ⟨1, 4, []⟩ (by decide)

/-- C8: a declared binding to an atom whose computation has failed does
not throw during attach — attach is a total operation whose log writes
the `Failure` Result value into the designated instance field — and
`matchResult` applied to that Failure with an `onFailure` handler
supplied returns that handler's output at the carried error, which is
the first typed failure extracted from the cause when one exists. -/
theorem c8_failure_binding {A E V : Type} (w : World (ResultM A E))
    (decls : List Binding) (b : Binding) (cause : CauseM E)
    (hb : b ∈ decls) (hv : w.reg.values b.atom = ResultM.Failure cause false) :
    Act.setField b.key (ResultM.Failure cause false) ∈
      (_subscribeToAtoms w decls).2 ∧
    (∀ (o : MatchResultOptions A E V) h, o.onFailure = some h →
      matchResult (ResultM.Failure cause false) o =
        h (extractError cause) (ResultM.Failure cause false)) ∧
    (∀ (e : E) (rest : List E), cause.failures = e :: rest →
      extractError cause = Sum.inl e) := by
  refine ⟨?_, ?_, ?_⟩
  · rw [subscribeToAtoms_log]
    exact List.mem_flatMap.mpr ⟨b, hb, by rw [hv]; simp⟩
  · intro o h hf
    simp [matchResult, matchResultT, hf, ResultM.isWaiting, ResultM.isInitial]
  · intro e rest he
    simp [extractError, he]

/-- C8 witness: with every atom's cached Result a completed Failure
carrying the typed failure 9, attaching the binding field 1 ↦ atom 4
writes that Failure into field 1. -/
theorem c8_failure_binding_witness :
    Act.setField 1 (ResultM.Failure (A := Nat) ⟨[9]⟩ false) ∈
      (_subscribeToAtoms failWorldNat [⟨1, 4, []⟩]).2 :=
  (c8_failure_binding (V := String) failWorldNat [⟨1, 4, []⟩] ⟨1, 4, []⟩ ⟨[9]⟩
    (by decide) rfl).1

/-- C9: imperative auto-subscription is idempotent per (instance, atom):
when the instance already holds a subscription for the atom, each
accessor (`useAtom`, `useAtomValue`, `useAtomSet`, `useAtomRefresh`,
`useAtomMount`) creates no new subscription and leaves the whole world —
in particular the instance's subscription map — unchanged; and after any
accessor call the atom is subscribed, so repeated accessor calls store
at most one subscription per (instance, atom). -/
theorem c9_auto_subscribe_idempotent (w : World V) (a : Nat)
    (ks : List String) (h : _isSubscribed w a = true) :
    useAtom w a = ((w, []), w.reg.values a) ∧
    useAtomValue w a = ((w, []), w.reg.values a) ∧
    useAtomSet w a = (w, []) ∧
    useAtomRefresh w a = (w, []) ∧
    useAtomMount w a ks = (w, []) ∧
    (∀ (w' : World V) (a' : Nat),
      _isSubscribed (useAtomValue w' a').1.1 a' = true) := by
  refine ⟨?_, ?_, ?_, ?_, ?_, ?_⟩
  · simp [useAtom, _autoSubscribe, h]
  · simp [useAtomValue, _autoSubscribe, h]
  · simp [useAtomSet, _autoSubscribe, h]
  · simp [useAtomRefresh, _autoSubscribe, h]
  · simp [useAtomMount, h]
  · intro w' a'
    by_cases hs : _isSubscribed w' a' = true
    · simp [useAtomValue, _autoSubscribe, hs]
    · have hs' : _isSubscribed w' a' = false := by
        simpa using hs
      simp only [_isSubscribed] at hs'
      simp [useAtomValue, _autoSubscribe, _isSubscribed, hs', mlook_mset_self]

/-- C9 witness: on the instance already subscribed to atom 3, a further
`useAtomValue` call returns the cached value and leaves the world
untouched. -/
theorem c9_auto_subscribe_idempotent_witness :
    useAtomValue subscribedWorldNat 3 = ((subscribedWorldNat, []), 0) :=
  (c9_auto_subscribe_idempotent subscribedWorldNat 3 [] rfl).2.1
